import Mathlib

/-!
Verification of the paginated-list iteration protocol and the
endpoint/transport selection logic of the `python-billing` client library.

The gRPC transport (`CloudBillingGrpcTransport`) is embedded from
`src/google/cloud/billing_v1/services/cloud_billing/transports/grpc.py`.
The pager (`pagers.py`), the client façade (`client.py`) and the transport
base class (`base.py`) are not part of the repository slice; they are
modelled from the specification (sections 4.1, 4.2, 7 and 8), and each such
definition carries a doc comment starting with `Modelled from the spec:`.
-/

namespace Billing

/-- One page of a list-style RPC response: the ordered items it carries and
its continuation token (`next_page_token`); an empty token means no further
pages. -/
structure Page (α : Type) where
  items : List α
  next_page_token : String
deriving DecidableEq, Repr

/-- Modelled from the spec: the Pager of `pagers.py` (absent from `src/`).
The `fetch` callable is represented by the sequence of responses that
successive calls return, as in the unit tests' mocked transport
(`call.side_effect`).  One recursion step is one fetch call: the Pager
fetches a page, yields it, and repeats while the page's continuation token
is non-empty; on an empty token it terminates without calling fetch again.
Result: (pages yielded, number of fetch calls made, whether fetch was
called after the response sequence ran out, i.e. the mock raised). -/
def pagerRun {α : Type} : List (Page α) → List (Page α) × Nat × Bool
  | [] => ([], 1, true)
  | p :: rest =>
    if p.next_page_token = "" then ([p], 1, false)
    else
      let r := pagerRun rest
      (p :: r.1, r.2.1 + 1, r.2.2)

/-- The `.pages` view: the lazy sequence of raw pages, driven to exhaustion. -/
def pagerPages {α : Type} (resps : List (Page α)) : List (Page α) :=
  (pagerRun resps).1

/-- Number of fetch calls performed when the Pager is driven to exhaustion. -/
def pagerFetchCount {α : Type} (resps : List (Page α)) : Nat :=
  (pagerRun resps).2.1

/-- Whether driving the Pager to exhaustion called fetch past the end of the
response sequence (the mocked fetch would raise there). -/
def pagerRaises {α : Type} (resps : List (Page α)) : Bool :=
  (pagerRun resps).2.2

/-- The items view (iterating the Pager directly): every page's item list,
flattened in page order with item order within each page preserved. -/
def pagerItems {α : Type} (resps : List (Page α)) : List α :=
  (pagerPages resps).flatMap Page.items

theorem pagerRun_nil {α : Type} : pagerRun ([] : List (Page α)) = ([], 1, true) :=
  rfl

theorem pagerRun_cons_stop {α : Type} (p : Page α) (rest : List (Page α))
    (h : p.next_page_token = "") : pagerRun (p :: rest) = ([p], 1, false) := by
  simp [pagerRun, h]

theorem pagerRun_cons_go {α : Type} (p : Page α) (rest : List (Page α))
    (h : p.next_page_token ≠ "") :
    pagerRun (p :: rest) =
      (p :: (pagerRun rest).1, (pagerRun rest).2.1 + 1, (pagerRun rest).2.2) := by
  simp [pagerRun, h]

/-- Claim C1: over a fetch function returning pages with continuation tokens
["abc", "def", "ghi", ""] and item counts [3, 0, 1, 2], iterating the Pager
directly yields exactly 6 items in page-concatenation order with item order
within each page preserved, and the `.pages` view yields exactly 4 pages
whose tokens equal ["abc", "def", "ghi", ""] in that order. -/
theorem pager_four_pages_six_items {α : Type} (a b c d : List α)
    (ha : a.length = 3) (hb : b.length = 0) (hc : c.length = 1)
    (hd : d.length = 2) :
    pagerItems [⟨a, "abc"⟩, ⟨b, "def"⟩, ⟨c, "ghi"⟩, ⟨d, ""⟩]
        = a ++ b ++ c ++ d
      ∧ (pagerItems [⟨a, "abc"⟩, ⟨b, "def"⟩, ⟨c, "ghi"⟩, ⟨d, ""⟩]).length = 6
      ∧ pagerPages [⟨a, "abc"⟩, ⟨b, "def"⟩, ⟨c, "ghi"⟩, ⟨d, ""⟩]
          = [⟨a, "abc"⟩, ⟨b, "def"⟩, ⟨c, "ghi"⟩, ⟨d, ""⟩]
      ∧ (pagerPages [⟨a, "abc"⟩, ⟨b, "def"⟩, ⟨c, "ghi"⟩, ⟨d, ""⟩]).map
            Page.next_page_token = ["abc", "def", "ghi", ""]
      ∧ (pagerPages [⟨a, "abc"⟩, ⟨b, "def"⟩, ⟨c, "ghi"⟩, ⟨d, ""⟩]).length = 4 := by
  refine ⟨?_, ?_, ?_, ?_, ?_⟩ <;>
    simp [pagerItems, pagerPages, pagerRun, List.append_assoc, ha, hb, hc, hd]

/-- Concrete instance of `pager_four_pages_six_items` on natural-number
items. -/
theorem pager_four_pages_six_items_check :
    pagerItems [⟨[0, 1, 2], "abc"⟩, ⟨([] : List Nat), "def"⟩, ⟨[3], "ghi"⟩,
        ⟨[4, 5], ""⟩] = [0, 1, 2] ++ [] ++ [3] ++ [4, 5]
      ∧ (pagerItems [⟨[0, 1, 2], "abc"⟩, ⟨([] : List Nat), "def"⟩, ⟨[3], "ghi"⟩,
          ⟨[4, 5], ""⟩]).length = 6
      ∧ pagerPages [⟨[0, 1, 2], "abc"⟩, ⟨([] : List Nat), "def"⟩, ⟨[3], "ghi"⟩,
          ⟨[4, 5], ""⟩]
          = [⟨[0, 1, 2], "abc"⟩, ⟨[], "def"⟩, ⟨[3], "ghi"⟩, ⟨[4, 5], ""⟩]
      ∧ (pagerPages [⟨[0, 1, 2], "abc"⟩, ⟨([] : List Nat), "def"⟩, ⟨[3], "ghi"⟩,
          ⟨[4, 5], ""⟩]).map Page.next_page_token = ["abc", "def", "ghi", ""]
      ∧ (pagerPages [⟨[0, 1, 2], "abc"⟩, ⟨([] : List Nat), "def"⟩, ⟨[3], "ghi"⟩,
          ⟨[4, 5], ""⟩]).length = 4 :=
  pager_four_pages_six_items [0, 1, 2] [] [3] [4, 5] rfl rfl rfl rfl

/-- Claim C2: once fetch returns a page whose continuation token is empty,
the Pager never invokes fetch again: driving either view to exhaustion makes
exactly one fetch call per page up to and including the first empty-token
page (`pre.length + 1` calls), the response sequence is never over-consumed,
and pages supplied after the first empty-token page are ignored. -/
theorem pager_stops_at_first_empty_token {α : Type} (pre post : List (Page α))
    (p : Page α) (hp : p.next_page_token = "")
    (hpre : ∀ q ∈ pre, q.next_page_token ≠ "") :
    pagerPages (pre ++ p :: post) = pre ++ [p]
      ∧ pagerFetchCount (pre ++ p :: post) = pre.length + 1
      ∧ pagerRaises (pre ++ p :: post) = false
      ∧ pagerItems (pre ++ p :: post) = (pre ++ [p]).flatMap Page.items := by
  have key : pagerRun (pre ++ p :: post) = (pre ++ [p], pre.length + 1, false) := by
    induction pre with
    | nil => simp [pagerRun_cons_stop p post hp]
    | cons q rest ih =>
      have hq : q.next_page_token ≠ "" := hpre q (List.mem_cons_self q rest)
      have ih' := ih fun r hr => hpre r (List.mem_cons_of_mem q hr)
      simp [List.cons_append, pagerRun_cons_go q (rest ++ p :: post) hq, ih']
  refine ⟨?_, ?_, ?_, ?_⟩ <;>
    simp [pagerPages, pagerFetchCount, pagerRaises, pagerItems, key]

/-- Concrete instance of `pager_stops_at_first_empty_token`: one non-empty
page, then an empty-token page, then an extra page that must be ignored. -/
theorem pager_stops_at_first_empty_token_check :
    pagerPages [(⟨[1], "t"⟩ : Page Nat), ⟨[2], ""⟩, ⟨[9], "zzz"⟩]
        = [⟨[1], "t"⟩, ⟨[2], ""⟩]
      ∧ pagerFetchCount [(⟨[1], "t"⟩ : Page Nat), ⟨[2], ""⟩, ⟨[9], "zzz"⟩]
          = [(⟨[1], "t"⟩ : Page Nat)].length + 1
      ∧ pagerRaises [(⟨[1], "t"⟩ : Page Nat), ⟨[2], ""⟩, ⟨[9], "zzz"⟩] = false
      ∧ pagerItems [(⟨[1], "t"⟩ : Page Nat), ⟨[2], ""⟩, ⟨[9], "zzz"⟩]
          = ([(⟨[1], "t"⟩ : Page Nat), ⟨[2], ""⟩]).flatMap Page.items :=
  pager_stops_at_first_empty_token [⟨[1], "t"⟩] [⟨[9], "zzz"⟩] ⟨[2], ""⟩ rfl
    (by decide)

/-- Standard default endpoint of the service, from the `host` default of
`CloudBillingGrpcTransport.__init__` in `grpc.py`. -/
def DEFAULT_ENDPOINT : String := "cloudbilling.googleapis.com"

/-- Modelled from the spec: the service's mutual-TLS default endpoint
(`DEFAULT_MTLS_ENDPOINT` of the client façade, `client.py` being absent
from `src/`). -/
def DEFAULT_MTLS_ENDPOINT : String := "cloudbilling.mtls.googleapis.com"

/-- The two kinds of configuration error the client construction can raise:
`MutualTLSChannelError` for an invalid value of the first environment toggle
(`GOOGLE_API_USE_MTLS_ENDPOINT`), `ValueError` for an invalid value of the
second toggle (`GOOGLE_API_USE_CLIENT_CERTIFICATE`) or for conflicting
construction arguments. -/
inductive ConfigError where
  | mutualTLSChannelError : ConfigError
  | valueError : ConfigError
deriving DecidableEq, Repr

/-- Client-side construction options (`client_options`). `client_cert_source`
records whether a certificate-source callback was supplied. -/
structure ClientOptions where
  api_endpoint : Option String
  client_cert_source : Bool
  credentials_file : Option String
  scopes : Option (List String)
  quota_project_id : Option String
deriving DecidableEq, Repr

/-- Environment signals consumed at construction time: the raw values of the
two environment toggles (`none` when unset) and whether ambient discovery
finds a default client certificate. -/
structure Env where
  use_client_cert : Option String
  use_mtls_endpoint : Option String
  adc_cert_available : Bool
deriving DecidableEq, Repr

/-- ASCII lowering of a string, character by character (used for the
case-insensitive comparison of the second environment toggle). -/
def asciiLower (s : String) : String := ⟨s.data.map Char.toLower⟩

/-- Modelled from the spec: validity of the second environment toggle
(`GOOGLE_API_USE_CLIENT_CERTIFICATE`): it must be "true"/"false"
(case-insensitive) or absent. -/
def validClientCertEnv : Option String → Bool
  | none => true
  | some s => asciiLower s = "true" || asciiLower s = "false"

/-- Modelled from the spec: whether the second environment toggle enables
client-certificate use (value "true", case-insensitive; unset means
disabled). -/
def useClientCert : Option String → Bool
  | none => false
  | some s => asciiLower s = "true"

/-- Validity of the first environment toggle
(`GOOGLE_API_USE_MTLS_ENDPOINT`): "never", "always", "auto", or absent. -/
def validMtlsEndpointEnv : Option String → Bool
  | none => true
  | some s => s = "never" || s = "always" || s = "auto"

/-- Modelled from the spec: whether a client certificate is both usable and
enabled — one is available (explicit certificate-source callback or ambient
discovery) and the second toggle is "true". -/
def clientCertUsed (opts : ClientOptions) (env : Env) : Bool :=
  useClientCert env.use_client_cert
    && (opts.client_cert_source || env.adc_cert_available)

/-- Modelled from the spec: the endpoint-resolution state machine of the
client façade (`client.py` absent from `src/`), evaluated in order, first
match wins: an explicitly supplied API endpoint is used verbatim; otherwise
the first toggle selects the standard endpoint ("never"), the mutual-TLS
endpoint ("always"), or — for "auto" or unset — the mutual-TLS endpoint
exactly when a client certificate is usable and enabled; any other toggle
value is a configuration error. -/
def resolveApiEndpoint (apiEndpoint : Option String) (mtlsEnv : Option String)
    (cert : Bool) : Except ConfigError String :=
  match apiEndpoint with
  | some e => .ok e
  | none =>
    match mtlsEnv with
    | none => .ok (if cert then DEFAULT_MTLS_ENDPOINT else DEFAULT_ENDPOINT)
    | some s =>
      if s = "never" then .ok DEFAULT_ENDPOINT
      else if s = "always" then .ok DEFAULT_MTLS_ENDPOINT
      else if s = "auto" then
        .ok (if cert then DEFAULT_MTLS_ENDPOINT else DEFAULT_ENDPOINT)
      else .error .mutualTLSChannelError

/-- The arguments the client façade passes to the transport constructor when
it creates a new transport. -/
structure TransportInit where
  host : String
  use_client_cert_creds : Bool
  credentials_given : Bool
  credentials_file : Option String
  scopes : Option (List String)
  quota_project_id : Option String
deriving DecidableEq, Repr

/-- The transport-constructor argument record built from resolved host and
certificate decision plus the pass-through options. -/
def mkTransportInit (opts : ClientOptions) (credentialsGiven : Bool)
    (host : String) (cert : Bool) : TransportInit :=
  { host := host, use_client_cert_creds := cert,
    credentials_given := credentialsGiven,
    credentials_file := opts.credentials_file, scopes := opts.scopes,
    quota_project_id := opts.quota_project_id }

/-- Modelled from the spec: construction of the client façade (`client.py`
absent from `src/`).  It validates the second environment toggle (invalid
value: `ValueError`), resolves the endpoint through the state machine
(invalid first toggle without an explicit endpoint:
`MutualTLSChannelError`), rejects a pre-built transport supplied together
with credentials, a credentials file, or scopes (`ValueError`), and
otherwise either adopts the pre-built transport (`some` transport given:
no new transport, result `.ok none`) or records the arguments of the new
transport it creates (`.ok (some _)`).  All errors are raised before any
transport or channel is created, which the embedding renders by returning
`.error` with no `TransportInit`. -/
def clientInit (opts : ClientOptions) (env : Env) (credentialsGiven : Bool)
    (transportGiven : Bool) : Except ConfigError (Option TransportInit) :=
  if validClientCertEnv env.use_client_cert = false then .error .valueError
  else
    match resolveApiEndpoint opts.api_endpoint env.use_mtls_endpoint
        (clientCertUsed opts env) with
    | .error e => .error e
    | .ok host =>
      if transportGiven then
        if credentialsGiven || opts.credentials_file.isSome
            || opts.scopes.isSome then
          .error .valueError
        else .ok none
      else .ok (some (mkTransportInit opts credentialsGiven host
          (clientCertUsed opts env)))

/-- Modelled from the spec: host normalisation of the transport base class
(`base.py` absent from `src/`): a host without a port gets the default
port 443 appended; a host already carrying a port is used unchanged. -/
def hostWithPort (host : String) : String :=
  if host.data.contains ':' then host else host ++ ":443"

theorem resolveApiEndpoint_ok_of_valid (ae v : Option String) (c : Bool)
    (h : ae.isSome = true ∨ validMtlsEndpointEnv v = true) :
    ∃ host, resolveApiEndpoint ae v c = .ok host := by
  cases ae with
  | some e => exact ⟨e, rfl⟩
  | none =>
    rcases h with h | h
    · simp at h
    · cases v with
      | none => exact ⟨_, rfl⟩
      | some s =>
        simp [validMtlsEndpointEnv] at h
        rcases h with (h | h) | h <;> subst h <;> exact ⟨_, rfl⟩

/-- A plain options record: no endpoint override, no certificate source, no
credentials file, no scopes, no quota project. -/
def optsPlain : ClientOptions := ⟨none, false, none, none, none⟩

/-- An environment with both toggles unset and no ambient certificate. -/
def envUnset : Env := ⟨none, none, false⟩

/-- Claim C3: with no explicit api_endpoint override, the resolved host
follows the first toggle's state machine — "never" selects the standard
default endpoint, "always" selects the mutual-TLS default endpoint
regardless of certificate presence, and "auto" (or unset) selects the
mutual-TLS endpoint together with the client certificate exactly when a
certificate is available and the second toggle is "true", otherwise the
standard endpoint with no client certificate. -/
theorem clientInit_mtls_state_machine (opts : ClientOptions) (env : Env)
    (cg : Bool) (hep : opts.api_endpoint = none)
    (hv : validClientCertEnv env.use_client_cert = true) :
    (env.use_mtls_endpoint = some "never" →
      clientInit opts env cg false
        = .ok (some (mkTransportInit opts cg DEFAULT_ENDPOINT
            (clientCertUsed opts env))))
    ∧ (env.use_mtls_endpoint = some "always" →
      clientInit opts env cg false
        = .ok (some (mkTransportInit opts cg DEFAULT_MTLS_ENDPOINT
            (clientCertUsed opts env))))
    ∧ ((env.use_mtls_endpoint = some "auto" ∨ env.use_mtls_endpoint = none) →
      clientInit opts env cg false
        = .ok (some (mkTransportInit opts cg
            (if clientCertUsed opts env then DEFAULT_MTLS_ENDPOINT
             else DEFAULT_ENDPOINT)
            (clientCertUsed opts env)))) := by
  refine ⟨fun h => ?_, fun h => ?_, fun h => ?_⟩
  · simp [clientInit, hv, resolveApiEndpoint, hep, h]
  · simp [clientInit, hv, resolveApiEndpoint, hep, h]
  · rcases h with h | h <;> simp [clientInit, hv, resolveApiEndpoint, hep, h]

/-- Concrete instance of `clientInit_mtls_state_machine`: toggle1 "auto",
toggle2 "true", ambient certificate available — the mutual-TLS endpoint is
selected together with the certificate. -/
theorem clientInit_mtls_state_machine_check :
    clientInit optsPlain ⟨some "true", some "auto", true⟩ false false
      = .ok (some ⟨DEFAULT_MTLS_ENDPOINT, true, false, none, none, none⟩) := by
  have h := (clientInit_mtls_state_machine optsPlain
      ⟨some "true", some "auto", true⟩ false rfl (by decide)).2.2 (Or.inl rfl)
  exact h.trans (by rfl)

/-- An options record whose only setting is an explicit endpoint override. -/
def optsEndpointOnly : ClientOptions :=
  ⟨some "squid.clam.whelk", false, none, none, none⟩

/-- Claim C4 as stated is false at a concrete input: with an explicit
api_endpoint override, construction succeeds even though the first
environment toggle holds the unsupported value "Unsupported" — the toggle is
only consulted when no explicit endpoint is given. -/
theorem clientInit_bad_toggle1_explicit_endpoint_succeeds :
    clientInit optsEndpointOnly ⟨none, some "Unsupported", false⟩ false false
      = .ok (some ⟨"squid.clam.whelk", false, false, none, none, none⟩) := by
  rfl

/-- Claim C4 (amended): a malformed second toggle fails construction with a
`ValueError`-style configuration error in every construction, and a
malformed first toggle fails construction with a
`MutualTLSChannelError`-style configuration error in every construction
without an explicit api_endpoint override; in both cases the result carries
no transport, i.e. the error precedes transport and channel creation. -/
theorem clientInit_invalid_toggles_fail (opts : ClientOptions) (env : Env)
    (cg tg : Bool) :
    (validClientCertEnv env.use_client_cert = false →
      clientInit opts env cg tg = .error .valueError)
    ∧ (opts.api_endpoint = none →
      validClientCertEnv env.use_client_cert = true →
      validMtlsEndpointEnv env.use_mtls_endpoint = false →
      clientInit opts env cg tg = .error .mutualTLSChannelError) := by
  constructor
  · intro hv
    simp [clientInit, hv]
  · intro hep hv hm
    cases henv : env.use_mtls_endpoint with
    | none => rw [henv] at hm; simp [validMtlsEndpointEnv] at hm
    | some s =>
      rw [henv] at hm
      simp [validMtlsEndpointEnv] at hm
      obtain ⟨⟨h1, h2⟩, h3⟩ := hm
      simp [clientInit, hv, resolveApiEndpoint, hep, henv, h1, h2, h3]

/-- Concrete instance of `clientInit_invalid_toggles_fail`: toggle1
"Unsupported" with no endpoint override fails with the mutual-TLS
configuration error. -/
theorem clientInit_invalid_toggles_fail_check :
    clientInit optsPlain ⟨none, some "Unsupported", false⟩ false false
      = .error .mutualTLSChannelError :=
  (clientInit_invalid_toggles_fail optsPlain ⟨none, some "Unsupported", false⟩
    false false).2 rfl (by decide) (by decide)

/-- Claim C5: supplying a pre-built transport together with a credentials
object, a credentials file, or a scopes list always fails construction with
a configuration error (never silently preferring one argument), and —
whenever the environment toggles are themselves well-formed — that error is
specifically the `ValueError`-style configuration error. -/
theorem clientInit_transport_conflict (opts : ClientOptions) (env : Env)
    (cg : Bool)
    (hc : cg = true ∨ opts.credentials_file.isSome = true
      ∨ opts.scopes.isSome = true) :
    (∃ err, clientInit opts env cg true = .error err)
    ∧ (validClientCertEnv env.use_client_cert = true →
      (opts.api_endpoint.isSome = true
        ∨ validMtlsEndpointEnv env.use_mtls_endpoint = true) →
      clientInit opts env cg true = .error .valueError) := by
  have hcon : (cg || opts.credentials_file.isSome || opts.scopes.isSome) = true := by
    rcases hc with h | h | h <;> simp [h]
  constructor
  · by_cases hv : validClientCertEnv env.use_client_cert = true
    · cases hres : resolveApiEndpoint opts.api_endpoint env.use_mtls_endpoint
          (clientCertUsed opts env) with
      | error err => exact ⟨err, by simp [clientInit, hv, hres]⟩
      | ok host => exact ⟨.valueError, by simp [clientInit, hv, hres, hcon]⟩
    · have hv' : validClientCertEnv env.use_client_cert = false := by
        simpa using hv
      exact ⟨.valueError, by simp [clientInit, hv']⟩
  · intro hv hres
    obtain ⟨host, hok⟩ := resolveApiEndpoint_ok_of_valid opts.api_endpoint
      env.use_mtls_endpoint (clientCertUsed opts env) hres
    simp [clientInit, hv, hok, hcon]

/-- Concrete instance of `clientInit_transport_conflict`: transport instance
plus a credentials object, default environment — a `ValueError`-style
configuration error. -/
theorem clientInit_transport_conflict_check :
    clientInit optsPlain envUnset true true = .error .valueError :=
  (clientInit_transport_conflict optsPlain envUnset true (Or.inl rfl)).2 rfl
    (Or.inr rfl)

/-- Claim C6: an explicitly supplied api_endpoint is passed to the transport
verbatim for every environment (no mutual-TLS endpoint switching), and the
transport's host normalisation appends ":443" exactly when the override
carries no port, leaving an override with a port unchanged. -/
theorem clientInit_explicit_endpoint (opts : ClientOptions) (env : Env)
    (cg : Bool) (e : String) (he : opts.api_endpoint = some e)
    (hv : validClientCertEnv env.use_client_cert = true) :
    clientInit opts env cg false
        = .ok (some (mkTransportInit opts cg e (clientCertUsed opts env)))
      ∧ (e.data.contains ':' = false → hostWithPort e = e ++ ":443")
      ∧ (e.data.contains ':' = true → hostWithPort e = e) := by
  refine ⟨?_, fun h => ?_, fun h => ?_⟩
  · simp [clientInit, hv, resolveApiEndpoint, he]
  · simp only [hostWithPort]
    rw [h]
    simp
  · simp only [hostWithPort]
    rw [h]
    simp

/-- An options record overriding the endpoint with "custom.example.com". -/
def optsCustom : ClientOptions :=
  ⟨some "custom.example.com", false, none, none, none⟩

/-- Concrete instance of `clientInit_explicit_endpoint`: the override
"custom.example.com" reaches the transport verbatim and normalises to
"custom.example.com:443". -/
theorem clientInit_explicit_endpoint_check :
    clientInit optsCustom envUnset false false
        = .ok (some ⟨"custom.example.com", false, false, none, none, none⟩)
      ∧ hostWithPort "custom.example.com" = "custom.example.com:443" := by
  have h := clientInit_explicit_endpoint optsCustom envUnset false
    "custom.example.com" rfl rfl
  exact ⟨h.1.trans (by rfl), (h.2.1 (by decide)).trans (by rfl)⟩

/-- A Python credentials argument slot: `None` (absent, ambient discovery
applies), the sentinel `False` (explicitly disabled), or a credentials
object. -/
inductive PyCred (κ : Type) where
  | pyNone : PyCred κ
  | pyFalse : PyCred κ
  | given : κ → PyCred κ
deriving DecidableEq, Repr

/-- Modelled from the spec: `CloudBillingTransport.__init__` of `base.py`
(absent from `src/`): it normalises the host (appending ":443" when no port
is present) and stores the credentials, resolving ambient default
credentials (`adcCreds`) only when the credentials argument is Python
`None`; any other value — including the `False` sentinel — is stored as
passed. -/
def baseTransportInit {κ : Type} (host : String) (creds : PyCred κ)
    (adcCreds : κ) : String × PyCred κ :=
  (hostWithPort host,
    match creds with
    | .pyNone => .given adcCreds
    | c => c)

/-- The instance state of `CloudBillingGrpcTransport` relevant to channel
and credential handling: `_host`, `_credentials`, the stub cache keys, and
the `_grpc_channel` attribute (absent before first creation). -/
structure GrpcTransportState (γ κ : Type) where
  _host : String
  _credentials : PyCred κ
  _stubs : List String
  _grpc_channel : Option γ
deriving DecidableEq, Repr

/-- `CloudBillingGrpcTransport.__init__` from `grpc.py`: if a channel is
provided, the credentials argument is overwritten with the Python `False`
sentinel before the base constructor runs; the stub cache starts empty; the
provided channel, if any, is installed as `_grpc_channel`. -/
def grpcTransportInit {γ κ : Type} (host : String) (credentials : PyCred κ)
    (channel : Option γ) (adcCreds : κ) : GrpcTransportState γ κ :=
  let credentials := if channel.isSome then .pyFalse else credentials
  let base := baseTransportInit host credentials adcCreds
  { _host := base.1, _credentials := base.2, _stubs := [],
    _grpc_channel := channel }

/-- The `grpc_channel` property from `grpc.py`: create a channel via
`create_channel(self._host, credentials=self._credentials)` only if the
`_grpc_channel` attribute is not yet set, cache it, and return the cached
channel. -/
def grpcChannelAccess {γ κ : Type} (create : String → PyCred κ → γ)
    (st : GrpcTransportState γ κ) : γ × GrpcTransportState γ κ :=
  match st._grpc_channel with
  | some c => (c, st)
  | none =>
    let c := create st._host st._credentials
    (c, { st with _grpc_channel := some c })

/-- Claim C7: constructing the gRPC transport with both a channel and a
credentials object raises no error; the construction is indistinguishable
from one given no credentials at all, the credentials object is discarded
(the stored credentials are the `False` sentinel, so ambient discovery is
not attempted either), and the supplied channel is what every stub uses —
`grpc_channel` returns it no matter what `create_channel` would produce. -/
theorem grpcTransportInit_channel_discards_credentials {γ κ : Type}
    (host : String) (c adcCreds : κ) (ch : γ) :
    grpcTransportInit host (.given c) (some ch) adcCreds
        = grpcTransportInit host .pyNone (some ch) adcCreds
      ∧ (grpcTransportInit host (.given c) (some ch) adcCreds)._grpc_channel
          = some ch
      ∧ (grpcTransportInit host (.given c) (some ch) adcCreds)._credentials
          = .pyFalse
      ∧ ∀ create : String → PyCred κ → γ,
          (grpcChannelAccess create
            (grpcTransportInit host (.given c) (some ch) adcCreds)).1 = ch := by
  refine ⟨?_, ?_, ?_, fun create => ?_⟩ <;>
    simp [grpcTransportInit, baseTransportInit, grpcChannelAccess]

/-- Claim C9: accessing `grpc_channel` is idempotent — after any access the
channel is fixed, and a further access returns the identical channel and
leaves the state unchanged regardless of what `create_channel` would now
produce (so a channel is created at most once and never replaced); and when
a channel was supplied at construction (`_grpc_channel` already set), every
access returns it verbatim without creating anything. -/
theorem grpcChannelAccess_idempotent {γ κ : Type}
    (st : GrpcTransportState γ κ) (create1 create2 : String → PyCred κ → γ) :
    grpcChannelAccess create2 (grpcChannelAccess create1 st).2
        = ((grpcChannelAccess create1 st).1, (grpcChannelAccess create1 st).2)
      ∧ ∀ ch, st._grpc_channel = some ch →
          grpcChannelAccess create1 st = (ch, st) := by
  constructor
  · cases h : st._grpc_channel with
    | some c => simp [grpcChannelAccess, h]
    | none => simp [grpcChannelAccess, h]
  · intro ch h
    simp [grpcChannelAccess, h]

/-- Concrete instance of `grpcChannelAccess_idempotent`: a transport
constructed with a pre-supplied channel returns that channel and an
unchanged state. -/
theorem grpcChannelAccess_idempotent_check :
    grpcChannelAccess (fun _ _ => (0 : Nat))
        (grpcTransportInit "squid.clam.whelk" (.given (5 : Nat)) (some 7) 5)
      = (7, grpcTransportInit "squid.clam.whelk" (.given (5 : Nat)) (some 7) 5) :=
  (grpcChannelAccess_idempotent
    (grpcTransportInit "squid.clam.whelk" (.given (5 : Nat)) (some 7) 5)
    (fun _ _ => 0) (fun _ _ => 0)).2 7 rfl

/-- The request message of the `GetBillingAccount` RPC: the resource name. -/
structure GetBillingAccountRequest where
  name : String
deriving DecidableEq, Repr

/-- Modelled from the spec: `CloudBillingClient.get_billing_account` of
`client.py` (absent from `src/`): supplying both a structured request object
and an individually named field override is rejected with a
`ValueError`-style configuration error before the transport callable is
invoked; otherwise the request is taken verbatim (or built from the
flattened field, an absent field meaning the proto default "") and passed to
the transport RPC. -/
def get_billing_account {ρ : Type} (rpc : GetBillingAccountRequest → ρ)
    (request : Option GetBillingAccountRequest) (name : Option String) :
    Except ConfigError ρ :=
  if request.isSome && name.isSome then .error .valueError
  else
    match request, name with
    | some r, _ => .ok (rpc r)
    | none, some n => .ok (rpc ⟨n⟩)
    | none, none => .ok (rpc ⟨""⟩)

/-- Claim C8: calling an RPC method with both a structured request object
and a flattened field raises a `ValueError`-style error, and the outcome is
identical for every transport callable — the transport is never invoked. -/
theorem get_billing_account_flattened_conflict {ρ : Type}
    (rpc1 rpc2 : GetBillingAccountRequest → ρ) (r : GetBillingAccountRequest)
    (n : String) :
    get_billing_account rpc1 (some r) (some n) = .error .valueError
      ∧ get_billing_account rpc1 (some r) (some n)
          = get_billing_account rpc2 (some r) (some n) := by
  constructor <;> simp [get_billing_account]

end Billing
